import Mathlib

/-!
Verification development for the oak bundle-compile-cache middleware.

The development shallowly embeds the two engine variants (`BCC.ts`, the
toggled variant, and the earlier variant without feature toggles) and the
route-dispatch layer (`BCC_Middleware.ts`).

Modelling conventions:
* JavaScript strings are `List Char` (`Str`), so structural lemmas about
  textual rewriting are provable by list induction.
* The filesystem is an association list from path to content.  The host OS
  resolves a leading `./` on a relative path, so the model normalizes a
  leading `./` before reading or writing; two path strings that the OS maps
  to the same file then agree in the model.
* Asynchronous operations are state-passing functions returning
  `Except JsError α × FS × List Ev`: the JS value or thrown error, the
  updated filesystem, and a trace of the external effects performed
  (file reads and writes, directory operations, network fetches, and
  invocations of the external Deno generators).
* The external collaborators (Deno.compile, Deno.bundle, Deno.transpileOnly,
  fetch, the md5 fingerprint, Deno.cwd) are oracle parameters, as the spec
  treats them as black boxes.
* JS truthiness on optional strings (`undefined` and `""` are falsy) is
  `jsTruthyS`; interpolating a possibly-undefined value into a template
  literal yields the text "undefined", which is `jsStr`.
-/

namespace OakBCC

/-- JavaScript strings, modelled as lists of characters. -/
abbrev Str := List Char

/-- Coerce a Lean string literal into the model's string type. -/
def str (s : String) : Str := s.data

/-- JS truthiness of an optional string: `undefined` and `""` are falsy. -/
def jsTruthyS : Option Str → Bool
  | none => false
  | some s => !s.isEmpty

/-- Template-literal interpolation of a possibly-undefined string:
`undefined` prints as the text "undefined". -/
def jsStr (o : Option Str) : Str := o.getD (str ("undefined"))

/-- JS line terminators, which `.` in a regular expression does not match. -/
def lineTerm (c : Char) : Bool :=
  c = '\n' || c = '\r' || c = '\u2028' || c = '\u2029'

/-- `script.replace(/.js$/, "")` from `cacheOrGen`: the dot is unescaped, so
the pattern strips a trailing three-character run of any non-line-terminator
character followed by the literal characters `js`. -/
def stripJs (s : Str) : Str :=
  match s.reverse with
  | a :: b :: c :: rest =>
    if a = 's' && b = 'j' && !lineTerm c then rest.reverse else s
  | _ => s

/-- Whether `p` occurs in `s` as a contiguous substring. -/
def hasSub (p s : Str) : Bool :=
  match s with
  | [] => p.isEmpty
  | _ :: rest => p.isPrefixOf s || hasSub p rest

/-- `code.replaceAll(pattern, replacement)`: every occurrence of the pattern,
scanned left to right without overlap, is replaced; replacement text is not
rescanned.  An empty pattern splices the replacement between all characters,
as in JS. -/
def replaceAll (p r s : Str) : Str :=
  match s with
  | [] => if p = [] then r else []
  | c :: rest =>
    if p = [] then r ++ c :: replaceAll p r rest
    else if p.isPrefixOf (c :: rest) then r ++ replaceAll p r (rest.drop (p.length - 1))
    else c :: replaceAll p r rest
termination_by s.length
decreasing_by
  all_goals simp [List.length_drop]
  omega

/-- The decomposition of a string at the non-overlapping left-to-right
occurrences of a nonempty pattern; `replaceAll` rewrites exactly these
occurrences. -/
def splitOnL (p s : Str) : List Str :=
  match s with
  | [] => [[]]
  | c :: rest =>
    if p = [] then [c :: rest]
    else if p.isPrefixOf (c :: rest) then [] :: splitOnL p (rest.drop (p.length - 1))
    else
      match splitOnL p rest with
      | [] => [[c]]
      | q :: qs => (c :: q) :: qs
termination_by s.length
decreasing_by
  all_goals simp [List.length_drop]
  omega

/-- Join a list of fragments with a separator between consecutive fragments. -/
def joinSep (sep : Str) : List Str → Str
  | [] => []
  | [q] => q
  | q :: qs => q ++ sep ++ joinSep sep qs

/-- Association-list lookup by exact key (JS `Map.get`, and the filesystem
read primitive). -/
def mapGet : List (Str × Str) → Str → Option Str
  | [], _ => none
  | (k, v) :: rest, key => if k = key then some v else mapGet rest key

/-- Association-list update (JS `Map.set`, and the filesystem write
primitive): an existing key keeps its position, a new key is appended. -/
def mapSet : List (Str × Str) → Str → Str → List (Str × Str)
  | [], k, v => [(k, v)]
  | (k0, v0) :: rest, k, v =>
    if k0 = k then (k, v) :: rest else (k0, v0) :: mapSet rest k v

/-- The filesystem: paths (normalized) mapped to file contents. -/
abbrev FS := List (Str × Str)

/-- The OS resolves `./x` and `x` to the same file, so the filesystem model
strips one leading `./` from every path it reads or writes. -/
def normPath (p : Str) : Str :=
  if (str ("./")).isPrefixOf p then p.drop 2 else p

/-- `fs.emptyDir(dir)`: every file under the directory is removed. -/
def emptyDirFS (fs : FS) (dir : Str) : FS :=
  fs.filter (fun e => !(normPath dir).isPrefixOf e.1)

/-- Observable external effects of one operation. -/
inductive Ev where
  | readEv (p : Str)
  | writeEv (p : Str)
  | ensureEv (p : Str)
  | emptyEv (p : Str)
  | existsEv (p : Str)
  | fetchEv (url : Str)
  | genCompileEv (s : Str)
  | genBundleEv (s : Str)
  | genTranspileEv (s : Str)
  deriving DecidableEq

/-- Faults a JS operation can throw.  `notFound` is what a failing
`Deno.readTextFile` throws; `assertError` is the `assert` failure raised on
non-null compiler diagnostics (carrying the diagnostics value, which the
source stringifies into the message); `fetchError` is a rejected network
fetch; `typeError` is a JS TypeError such as calling a method on
`undefined`. -/
inductive JsError where
  | notFound (p : Str)
  | assertError (d : Str)
  | fetchError (m : Str)
  | typeError (m : Str)
  deriving DecidableEq

deriving instance DecidableEq for Except

/-- Result of an asynchronous operation: value or thrown fault, the
filesystem afterwards, and the effect trace. -/
abbrev Res (α : Type) := Except JsError α × FS × List Ev

/-- The external collaborators, kept abstract: md5 fingerprint,
network fetch (url to body text, or a rejection), `Deno.compile`
(source path to diagnostics and emit map), `Deno.bundle` (source path to
diagnostics and emitted text), `Deno.transpileOnly` (returning its result
record), and `Deno.cwd()`. -/
structure Oracles where
  md5 : Str → Str
  fetchO : Str → Except JsError Str
  compileO : Str → Except JsError (Option Str × List (Str × Str))
  bundleO : Str → Except JsError (Option Str × Str)
  transpileO : Str → Except JsError (List (Str × Str))
  cwd : Str

/-- `BCC_Settings` of the toggled variant: every folder past the source root
is optional. -/
structure BCC_Settings where
  tsSource : Str
  bundleFolder : Option Str := none
  compiledFolder : Option Str := none
  transpileFolder : Option Str := none
  cacheFolder : Option Str := none
  cacheRoot : Option Str := none
  mapSources : Bool := false

/-- The `BCC` class state: the constructor settings plus the remote-source
registry (`cacheMap`), which starts empty. -/
structure BCC where
  settings : BCC_Settings
  cacheMap : List (Str × Str) := []

/-- `addCacheSource(handle, source)`. -/
def addCacheSource (b : BCC) (handle source : Str) : BCC :=
  { b with cacheMap := mapSet b.cacheMap handle source }

/-- `validSource(handle)`. -/
def validSource (b : BCC) (handle : Str) : Bool :=
  (mapGet b.cacheMap handle).isSome

/-- `mapExternalSources(code)`: when `mapSources` is set, each registry entry
in insertion order rewrites the occurrences of its source URL into
`${cacheRoot}/${handle}/`; otherwise the code is returned unchanged. -/
def mapExternalSources (b : BCC) (code : Str) : Str :=
  if b.settings.mapSources then
    b.cacheMap.foldl
      (fun c2 e => replaceAll e.2 (jsStr b.settings.cacheRoot ++ str ("/") ++ e.1 ++ str ("/")) c2)
      code
  else code

/-- The planned cache location `./{folder}/{script}` of an enabled kind. -/
def plannedPath (folder : Option Str) (script : Str) : Str :=
  str ("./") ++ jsStr folder ++ str ("/") ++ script

/-- The source location `./{tsSource}/{script}`. -/
def srcPath (b : BCC) (script : Str) : Str :=
  str ("./") ++ b.settings.tsSource ++ str ("/") ++ script

/-- The `paths` record produced by `generatedPaths`. -/
structure Paths where
  source : Str
  sourceURI : Str
  bundle : Option Str
  transpile : Option Str
  compiled : Option Str

/-- `generatedPaths(script)` of the toggled variant: a disabled folder yields
`false` (here `none`) for its path. -/
def generatedPaths (b : BCC) (o : Oracles) (script : Str) : Paths where
  source := str ("./") ++ b.settings.tsSource ++ str ("/") ++ script
  sourceURI := str ("file://") ++ o.cwd ++ str ("/") ++ b.settings.tsSource ++ str ("/")
  bundle :=
    if jsTruthyS b.settings.bundleFolder then
      some (str ("./") ++ jsStr b.settings.bundleFolder ++ str ("/") ++ script)
    else none
  transpile :=
    if jsTruthyS b.settings.transpileFolder then
      some (str ("./") ++ jsStr b.settings.transpileFolder ++ str ("/") ++ script)
    else none
  compiled :=
    if jsTruthyS b.settings.compiledFolder then
      some (str ("./") ++ jsStr b.settings.compiledFolder ++ str ("/") ++ script)
    else none

/-- `valid(script?)`: an absent or empty script is rejected without touching
the filesystem; otherwise `fs.exists` checks the source path. -/
def validOp (b : BCC) (o : Oracles) (script : Option Str) (fs : FS) : Res Bool :=
  match script with
  | none => (Except.ok false, fs, [])
  | some s =>
    if s.isEmpty then (Except.ok false, fs, [])
    else
      let p := (generatedPaths b o s).source
      (Except.ok (mapGet fs (normPath p)).isSome, fs, [Ev.existsEv p])

/-- The first-tier sentinel payload: the operation is disabled in the
configuration. -/
def disabledSentinel (fn : Str) : Str :=
  str ("throw new Error(\"") ++ fn ++ str (" is disabled in the BCC configuration.\")")

/-- The second-tier sentinel payload: generation ran but the planned cache
file is still unreadable. -/
def notFoundSentinel (fn scriptName : Str) : Str :=
  str ("throw new Error(\"") ++ fn ++ str (" failed to find file \x27") ++ scriptName ++
    str ("\x27.\")")

/-- Sentinel of `scriptCache` when the external cache folder is unset. -/
def extDisabledSentinel : Str :=
  str ("throw new Error(\"External cache disabled.\")")

/-- Sentinel of `scriptCache` when the entry is still missing after
`updateCache`. -/
def extMissingSentinel (scriptName handle : Str) : Str :=
  str ("throw new Error(\"external cache missing file \x27") ++ scriptName ++
    str ("\x27 for source \x27") ++ handle ++ str ("\x27.\")")

/-- `cacheOrGen(script, cachePath, generator, functionName)` of the toggled
variant.  A falsy `cachePath` returns the disabled sentinel with no effects.
Otherwise: read the cache path; on failure invoke the generator on the
stripped script and re-read; if the re-read also fails return the
second-tier sentinel.  A fault thrown by the generator is not caught (the
`await` sits outside the inner `try`), so it propagates.  The initial
"somehow failed" assignment of the source is dead on every path and is
omitted. -/
def cacheOrGen (script : Str) (cachePath : Option Str)
    (generator : Str → FS → Res Unit) (functionName : Str) (fs : FS) : Res Str :=
  match cachePath with
  | none => (Except.ok (disabledSentinel functionName), fs, [])
  | some cp =>
    if cp.isEmpty then (Except.ok (disabledSentinel functionName), fs, [])
    else
      match mapGet fs (normPath cp) with
      | some d => (Except.ok d, fs, [Ev.readEv cp])
      | none =>
        match generator (stripJs script) fs with
        | (Except.ok _, fs2, e2) =>
          match mapGet fs2 (normPath cp) with
          | some d => (Except.ok d, fs2, Ev.readEv cp :: e2 ++ [Ev.readEv cp])
          | none =>
            (Except.ok (notFoundSentinel functionName script), fs2,
              Ev.readEv cp :: e2 ++ [Ev.readEv cp])
        | (Except.error e, fs2, e2) => (Except.error e, fs2, Ev.readEv cp :: e2)

/-- The emit loop of `compile`: for each resource of the emit map,
`ensureDir` the output folder and write the rewritten code to the single
path `paths.compiled` (every iteration overwrites the same file). -/
def writeEmitLoop (b : BCC) (folder dir : Str) : List (Str × Str) → FS → FS × List Ev
  | [], fs => (fs, [])
  | (_, raw) :: rest, fs =>
    let code := mapExternalSources b raw
    let fs2 := mapSet fs (normPath dir) code
    match writeEmitLoop b folder dir rest fs2 with
    | (fs3, evs) => (fs3, Ev.ensureEv folder :: Ev.writeEv dir :: evs)

/-- `compile(script)` of the toggled variant: no-op when the compiled folder
is disabled; otherwise invoke `Deno.compile` on the source path, assert the
diagnostics are null (a non-null value throws and propagates), then write
each emitted resource, rewritten, to `paths.compiled`.  Note the write path
has no `.js` appended in this variant. -/
def compileOp (b : BCC) (o : Oracles) (script : Str) (fs : FS) : Res Unit :=
  let ps := generatedPaths b o script
  match ps.compiled with
  | none => (Except.ok (), fs, [])
  | some dir =>
    if dir.isEmpty || !jsTruthyS b.settings.compiledFolder then (Except.ok (), fs, [])
    else
      match o.compileO ps.source with
      | Except.error e => (Except.error e, fs, [Ev.genCompileEv script])
      | Except.ok (some d, _) =>
        (Except.error (JsError.assertError d), fs, [Ev.genCompileEv script])
      | Except.ok (none, emitMap) =>
        let we := writeEmitLoop b (jsStr b.settings.compiledFolder) dir emitMap fs
        (Except.ok (), we.1, Ev.genCompileEv script :: we.2)

/-- `cachedCompile(script)`. -/
def cachedCompile (b : BCC) (o : Oracles) (script : Str) (fs : FS) : Res Str :=
  cacheOrGen script (generatedPaths b o script).compiled
    (fun sc fs2 => compileOp b o sc fs2) (str ("cachedCompile")) fs

/-- `bundle(script)` of the toggled variant: no-op when disabled; otherwise
invoke `Deno.bundle`, assert null diagnostics, `ensureDir` the bundle
folder, and write the rewritten emit to `${paths.bundle}.js`. -/
def bundleOp (b : BCC) (o : Oracles) (script : Str) (fs : FS) : Res Unit :=
  let ps := generatedPaths b o script
  match ps.bundle with
  | none => (Except.ok (), fs, [])
  | some dir =>
    if dir.isEmpty || !jsTruthyS b.settings.bundleFolder then (Except.ok (), fs, [])
    else
      match o.bundleO ps.source with
      | Except.error e => (Except.error e, fs, [Ev.genBundleEv script])
      | Except.ok (some d, _) =>
        (Except.error (JsError.assertError d), fs, [Ev.genBundleEv script])
      | Except.ok (none, emit) =>
        let code := mapExternalSources b emit
        let wp := dir ++ str (".js")
        (Except.ok (), mapSet fs (normPath wp) code,
          [Ev.genBundleEv script, Ev.ensureEv (jsStr b.settings.bundleFolder), Ev.writeEv wp])

/-- `cachedBundle(script)`. -/
def cachedBundle (b : BCC) (o : Oracles) (script : Str) (fs : FS) : Res Str :=
  cacheOrGen script (generatedPaths b o script).bundle
    (fun sc fs2 => bundleOp b o sc fs2) (str ("cachedBundle")) fs

/-- `transpile(script)` of the toggled variant.  The source reads
`emit.source` from the `Deno.transpileOnly` result, but the result is a
record keyed by the input name, so `emit.source` is `undefined` unless the
record happens to carry a `source` key.  With rewriting enabled and a
nonempty registry, `undefined.replaceAll` throws a TypeError; otherwise the
`undefined` value reaches `Deno.writeTextFile`, whose text encoder treats
the absent optional argument as the empty string. -/
def transpileOp (b : BCC) (o : Oracles) (script : Str) (fs : FS) : Res Unit :=
  let ps := generatedPaths b o script
  match ps.transpile with
  | none => (Except.ok (), fs, [])
  | some dir =>
    if dir.isEmpty || !jsTruthyS b.settings.transpileFolder then (Except.ok (), fs, [])
    else
      match o.transpileO ps.source with
      | Except.error e => (Except.error e, fs, [Ev.genTranspileEv script])
      | Except.ok emit =>
        match mapGet emit (str ("source")) with
        | some raw =>
          let code := mapExternalSources b raw
          (Except.ok (), mapSet fs (normPath dir) code,
            [Ev.genTranspileEv script, Ev.ensureEv (jsStr b.settings.transpileFolder),
              Ev.writeEv dir])
        | none =>
          if b.settings.mapSources && !b.cacheMap.isEmpty then
            (Except.error (JsError.typeError (str ("undefined has no method replaceAll"))), fs,
              [Ev.genTranspileEv script])
          else
            (Except.ok (), mapSet fs (normPath dir) [],
              [Ev.genTranspileEv script, Ev.ensureEv (jsStr b.settings.transpileFolder),
                Ev.writeEv dir])

/-- `cachedTranspile(script)`. -/
def cachedTranspile (b : BCC) (o : Oracles) (script : Str) (fs : FS) : Res Str :=
  cacheOrGen script (generatedPaths b o script).transpile
    (fun sc fs2 => transpileOp b o sc fs2) (str ("cachedTranspile")) fs

/-- `updateCache(script, src, uri)` of the toggled variant (the `uri`
parameter is unused, as in the source): fetch
`${cacheMap.get(src)}${script}` (an unregistered `src` interpolates as
"undefined"), rewrite the body, ensure `${cacheFolder}/${src}/`, and write
the md5-named entry.  A fetch rejection propagates. -/
def updateCacheOp (b : BCC) (o : Oracles) (script src uri : Str) (fs : FS) : Res Unit :=
  if !jsTruthyS b.settings.cacheFolder then (Except.ok (), fs, [])
  else
    let url := jsStr (mapGet b.cacheMap src) ++ script
    match o.fetchO url with
    | Except.error e => (Except.error e, fs, [Ev.fetchEv url])
    | Except.ok body =>
      let code := mapExternalSources b body
      let cf := jsStr b.settings.cacheFolder
      let entry := cf ++ str ("/") ++ src ++ str ("/") ++ o.md5 script
      (Except.ok (), mapSet fs (normPath entry) code,
        [Ev.fetchEv url, Ev.ensureEv (cf ++ str ("/") ++ src ++ str ("/")), Ev.writeEv entry])

/-- `scriptCache(script, handle)` of the toggled variant: disabled sentinel
when the cache folder is unset; otherwise read the md5-keyed entry, on a
miss run `updateCache` (whose faults propagate — the `await` is outside the
inner `try`) and re-read, degrading to the missing-file sentinel only when
the re-read still fails. -/
def scriptCacheOp (b : BCC) (o : Oracles) (script handle : Str) (fs : FS) : Res Str :=
  if jsTruthyS b.settings.cacheFolder then
    let cf := jsStr b.settings.cacheFolder
    let uri := str ("./") ++ cf ++ str ("/") ++ handle ++ str ("/") ++ o.md5 script
    match mapGet fs (normPath uri) with
    | some d => (Except.ok d, fs, [Ev.readEv uri])
    | none =>
      match updateCacheOp b o script handle uri fs with
      | (Except.ok _, fs2, e2) =>
        match mapGet fs2 (normPath uri) with
        | some d => (Except.ok d, fs2, Ev.readEv uri :: e2 ++ [Ev.readEv uri])
        | none =>
          (Except.ok (extMissingSentinel script handle), fs2,
            Ev.readEv uri :: e2 ++ [Ev.readEv uri])
      | (Except.error e, fs2, e2) => (Except.error e, fs2, Ev.readEv uri :: e2)
  else (Except.ok extDisabledSentinel, fs, [])

/-- `clearBundleCache()` of the toggled variant. -/
def clearBundleCacheOp (b : BCC) (fs : FS) : Res Unit :=
  if !jsTruthyS b.settings.bundleFolder then (Except.ok (), fs, [])
  else
    let d := str ("./") ++ jsStr b.settings.bundleFolder ++ str ("/")
    (Except.ok (), emptyDirFS fs d, [Ev.emptyEv d])

/-- `clearCompileCache()` of the toggled variant. -/
def clearCompileCacheOp (b : BCC) (fs : FS) : Res Unit :=
  if !jsTruthyS b.settings.compiledFolder then (Except.ok (), fs, [])
  else
    let d := str ("./") ++ jsStr b.settings.compiledFolder ++ str ("/")
    (Except.ok (), emptyDirFS fs d, [Ev.emptyEv d])

/-- `clearExternalCache()` of the toggled variant. -/
def clearExternalCacheOp (b : BCC) (fs : FS) : Res Unit :=
  if !jsTruthyS b.settings.cacheFolder then (Except.ok (), fs, [])
  else
    let d := str ("./") ++ jsStr b.settings.cacheFolder ++ str ("/")
    (Except.ok (), emptyDirFS fs d, [Ev.emptyEv d])

/-! ## The earlier engine variant without feature toggles

The second engine variant in the repository: every folder is a plain string,
there is no disabled check, no transpile kind, and `updateCache` hardcodes
the `./cache/` directory.  Its definitions are prefixed with `s`. -/

/-- `BCC_Settings` of the simple variant: all folders are required. -/
structure SBCC_Settings where
  tsSource : Str
  bundleFolder : Str
  compiledFolder : Str
  cacheFolder : Str
  cacheRoot : Str
  mapSources : Bool := false

/-- The simple variant's class state. -/
structure SBCC where
  settings : SBCC_Settings
  cacheMap : List (Str × Str) := []

/-- `mapExternalSources(code)` of the simple variant. -/
def sMapExternalSources (b : SBCC) (code : Str) : Str :=
  if b.settings.mapSources then
    b.cacheMap.foldl
      (fun c2 e => replaceAll e.2 (b.settings.cacheRoot ++ str ("/") ++ e.1 ++ str ("/")) c2)
      code
  else code

/-- The `paths` record of the simple variant: no optional fields. -/
structure SPaths where
  source : Str
  sourceURI : Str
  bundle : Str
  compiled : Str

/-- `generatedPaths(script)` of the simple variant. -/
def sGeneratedPaths (b : SBCC) (o : Oracles) (script : Str) : SPaths where
  source := str ("./") ++ b.settings.tsSource ++ str ("/") ++ script
  sourceURI := str ("file://") ++ o.cwd ++ str ("/") ++ b.settings.tsSource ++ str ("/")
  bundle := str ("./") ++ b.settings.bundleFolder ++ str ("/") ++ script
  compiled := str ("./") ++ b.settings.compiledFolder ++ str ("/") ++ script

/-- `cacheOrGen` of the simple variant: no disabled branch; otherwise the
same read / generate / re-read / sentinel ladder, with generator faults
propagating. -/
def sCacheOrGen (script : Str) (cachePath : Str)
    (generator : Str → FS → Res Unit) (functionName : Str) (fs : FS) : Res Str :=
  match mapGet fs (normPath cachePath) with
  | some d => (Except.ok d, fs, [Ev.readEv cachePath])
  | none =>
    match generator (stripJs script) fs with
    | (Except.ok _, fs2, e2) =>
      match mapGet fs2 (normPath cachePath) with
      | some d => (Except.ok d, fs2, Ev.readEv cachePath :: e2 ++ [Ev.readEv cachePath])
      | none =>
        (Except.ok (notFoundSentinel functionName script), fs2,
          Ev.readEv cachePath :: e2 ++ [Ev.readEv cachePath])
    | (Except.error e, fs2, e2) => (Except.error e, fs2, Ev.readEv cachePath :: e2)

/-- The emit loop of the simple variant's `compile`: each resource is
written to `${dir}.js`. -/
def sWriteEmitLoop (b : SBCC) (wp : Str) : List (Str × Str) → FS → FS × List Ev
  | [], fs => (fs, [])
  | (_, raw) :: rest, fs =>
    let code := sMapExternalSources b raw
    let fs2 := mapSet fs (normPath wp) code
    match sWriteEmitLoop b wp rest fs2 with
    | (fs3, evs) => (fs3, Ev.writeEv wp :: evs)

/-- `compile(script)` of the simple variant: note the write path is
`${dir}.js` here, unlike the toggled variant, and there is no `ensureDir`. -/
def sCompileOp (b : SBCC) (o : Oracles) (script : Str) (fs : FS) : Res Unit :=
  let ps := sGeneratedPaths b o script
  match o.compileO ps.source with
  | Except.error e => (Except.error e, fs, [Ev.genCompileEv script])
  | Except.ok (some d, _) =>
    (Except.error (JsError.assertError d), fs, [Ev.genCompileEv script])
  | Except.ok (none, emitMap) =>
    let we := sWriteEmitLoop b (ps.compiled ++ str (".js")) emitMap fs
    (Except.ok (), we.1, Ev.genCompileEv script :: we.2)

/-- `cachedCompile(script)` of the simple variant. -/
def sCachedCompile (b : SBCC) (o : Oracles) (script : Str) (fs : FS) : Res Str :=
  sCacheOrGen script (sGeneratedPaths b o script).compiled
    (fun sc fs2 => sCompileOp b o sc fs2) (str ("cachedCompile")) fs

/-- `bundle(script)` of the simple variant: write `${dir}.js`, no
`ensureDir`. -/
def sBundleOp (b : SBCC) (o : Oracles) (script : Str) (fs : FS) : Res Unit :=
  let ps := sGeneratedPaths b o script
  match o.bundleO ps.source with
  | Except.error e => (Except.error e, fs, [Ev.genBundleEv script])
  | Except.ok (some d, _) =>
    (Except.error (JsError.assertError d), fs, [Ev.genBundleEv script])
  | Except.ok (none, emit) =>
    let code := sMapExternalSources b emit
    let wp := ps.bundle ++ str (".js")
    (Except.ok (), mapSet fs (normPath wp) code, [Ev.genBundleEv script, Ev.writeEv wp])

/-- `cachedBundle(script)` of the simple variant. -/
def sCachedBundle (b : SBCC) (o : Oracles) (script : Str) (fs : FS) : Res Str :=
  sCacheOrGen script (sGeneratedPaths b o script).bundle
    (fun sc fs2 => sBundleOp b o sc fs2) (str ("cachedBundle")) fs

/-- `updateCache(script, src, uri)` of the simple variant: the write goes to
the hardcoded `./cache/${src}/` directory, regardless of the configured
cache folder. -/
def sUpdateCacheOp (b : SBCC) (o : Oracles) (script src uri : Str) (fs : FS) : Res Unit :=
  let url := jsStr (mapGet b.cacheMap src) ++ script
  match o.fetchO url with
  | Except.error e => (Except.error e, fs, [Ev.fetchEv url])
  | Except.ok body =>
    let code := sMapExternalSources b body
    let entry := str ("./cache/") ++ src ++ str ("/") ++ o.md5 script
    (Except.ok (), mapSet fs (normPath entry) code,
      [Ev.fetchEv url, Ev.ensureEv (str ("./cache/") ++ src ++ str ("/")), Ev.writeEv entry])

/-- `scriptCache(script, handle)` of the simple variant. -/
def sScriptCacheOp (b : SBCC) (o : Oracles) (script handle : Str) (fs : FS) : Res Str :=
  let uri :=
    str ("./") ++ b.settings.cacheFolder ++ str ("/") ++ handle ++ str ("/") ++ o.md5 script
  match mapGet fs (normPath uri) with
  | some d => (Except.ok d, fs, [Ev.readEv uri])
  | none =>
    match sUpdateCacheOp b o script handle uri fs with
    | (Except.ok _, fs2, e2) =>
      match mapGet fs2 (normPath uri) with
      | some d => (Except.ok d, fs2, Ev.readEv uri :: e2 ++ [Ev.readEv uri])
      | none =>
        (Except.ok (extMissingSentinel script handle), fs2,
          Ev.readEv uri :: e2 ++ [Ev.readEv uri])
    | (Except.error e, fs2, e2) => (Except.error e, fs2, Ev.readEv uri :: e2)

/-- `clearBundleCache()` of the simple variant. -/
def sClearBundleCacheOp (b : SBCC) (fs : FS) : Res Unit :=
  let d := str ("./") ++ b.settings.bundleFolder ++ str ("/")
  (Except.ok (), emptyDirFS fs d, [Ev.emptyEv d])

/-- `clearCompileCache()` of the simple variant. -/
def sClearCompileCacheOp (b : SBCC) (fs : FS) : Res Unit :=
  let d := str ("./") ++ b.settings.compiledFolder ++ str ("/")
  (Except.ok (), emptyDirFS fs d, [Ev.emptyEv d])

/-- `clearExternalCache()` of the simple variant. -/
def sClearExternalCacheOp (b : SBCC) (fs : FS) : Res Unit :=
  let d := str ("./") ++ b.settings.cacheFolder ++ str ("/")
  (Except.ok (), emptyDirFS fs d, [Ev.emptyEv d])

/-! ## The route-dispatch layer (`BCC_Middleware.ts`) -/

/-- A path pattern: the capture list on success (`test` is success of the
match, `exec`'s numbered groups are the list entries). -/
abbrev Matcher := Str → Option (List Str)

/-- Leftmost match of a literal followed by a `(.+)` group: the regex engine
tries every start position in order; at an occurrence of the literal the
greedy group takes the following non-line-terminator run, which must be
nonempty. -/
def findMatch (lit s : Str) : Option Str :=
  match s with
  | [] => none
  | _ :: rest =>
    if lit.isPrefixOf s then
      match s.drop lit.length with
      | [] => none
      | a :: after =>
        if lineTerm a then findMatch lit rest
        else some ((a :: after).takeWhile (fun ch => !lineTerm ch))
    else findMatch lit rest

/-- The tail of the cache pattern after the `/cache/` literal:
`(.+?)\/(.+)` — the lazy first group grows from one character until a `/` is
followed by a nonempty `(.+)` run; the lazy group may swallow `/`
characters while backtracking but never a line terminator. -/
def cacheCapsGo (g1rev rem : Str) : Option (Str × Str) :=
  match rem with
  | [] => none
  | d :: rest2 =>
    if d = '/' then
      match rest2 with
      | e :: _ =>
        if !lineTerm e then
          some (g1rev.reverse, rest2.takeWhile (fun ch => !lineTerm ch))
        else cacheCapsGo (d :: g1rev) rest2
      | [] => cacheCapsGo (d :: g1rev) rest2
    else if lineTerm d then none
    else cacheCapsGo (d :: g1rev) rest2

/-- Captures of `(.+?)\/(.+)` on the text after a `/cache/` occurrence. -/
def cacheCaps (after : Str) : Option (Str × Str) :=
  match after with
  | [] => none
  | c :: rest => if lineTerm c then none else cacheCapsGo [c] rest

/-- Leftmost position where the full cache pattern
`\/cache\/(.+?)\/(.+)` matches. -/
def findCacheCaps (s : Str) : Option (Str × Str) :=
  match s with
  | [] => none
  | _ :: rest =>
    if (str ("/cache/")).isPrefixOf s then
      match cacheCaps (s.drop 7) with
      | some r => some r
      | none => findCacheCaps rest
    else findCacheCaps rest

/-- The default bundle pattern `/\/bundled\/(.+)/`. -/
def defBundleMatcher : Matcher :=
  fun s => (findMatch (str ("/bundled/")) s).map (fun cap => [cap])

/-- The default compile pattern `/\/compiled\/(.+)/`. -/
def defCompileMatcher : Matcher :=
  fun s => (findMatch (str ("/compiled/")) s).map (fun cap => [cap])

/-- The default cache pattern `/\/cache\/(.+?)\/(.+)/`. -/
def defCacheMatcher : Matcher :=
  fun s => (findCacheCaps s).map (fun r => [r.1, r.2])

/-- `BCC_Middleware_Settings`: an absent pattern field keeps the default.
The source tests `settings.X != undefined` with loose inequality, which an
explicit `null` also fails, so `null` and absent behave identically and both
are `none` here. -/
structure BCC_Middleware_Settings where
  bccSettings : BCC_Settings
  BundleRegEx : Option Matcher := none
  CompileRegEx : Option Matcher := none
  CacheRegEx : Option Matcher := none

/-- The constructed middleware state: the three pattern slots after
defaulting and folder-based disabling, and the owned `BCC`. -/
structure BCC_Middleware where
  BundleRegEx : Option Matcher
  CompileRegEx : Option Matcher
  CacheRegEx : Option Matcher
  bcc : BCC

/-- The `BCC_Middleware` constructor: start from the default patterns,
override each slot when the settings supply one, then force a slot to null
whenever its folder is not configured (the folder check runs after the
override, so it wins). -/
def mkMiddleware (s : BCC_Middleware_Settings) : BCC_Middleware :=
  let bre0 := match s.BundleRegEx with | some m => some m | none => some defBundleMatcher
  let bre := if jsTruthyS s.bccSettings.bundleFolder then bre0 else none
  let cre0 := match s.CompileRegEx with | some m => some m | none => some defCompileMatcher
  let cre := if jsTruthyS s.bccSettings.compiledFolder then cre0 else none
  let care0 := match s.CacheRegEx with | some m => some m | none => some defCacheMatcher
  let care := if jsTruthyS s.bccSettings.cacheFolder then care0 else none
  { BundleRegEx := bre, CompileRegEx := cre, CacheRegEx := care,
    bcc := { settings := s.bccSettings, cacheMap := [] } }

/-- What one middleware invocation does with the request: set a body and a
content type, or fall through to the next handler. -/
inductive Dispatch where
  | handled (body : Str) (ctype : Str)
  | pass
  deriving DecidableEq

/-- `pattern?.test(path)` and the subsequent `exec`, as one optional-chained
match: a null slot never matches. -/
def matchOf (om : Option Matcher) (p : Str) : Option (List Str) :=
  match om with
  | some m => m p
  | none => none

/-- Setting the response from a cache operation's result: the returned text
becomes the body and the content type is `text/javascript`; a fault from the
awaited operation propagates. -/
def asHandled (res : Res Str) : Res Dispatch :=
  (res.1.map (fun body => Dispatch.handled body (str ("text/javascript"))), res.2)

/-- The returned middleware closure: try bundle, then compile, then cache;
on the first match call the corresponding cache operation with the captured
groups (a missing group interpolates as "undefined") and mark the body as
`text/javascript`; otherwise call the next handler. -/
def middlewareRun (mw : BCC_Middleware) (o : Oracles) (path : Str) (fs : FS) :
    Res Dispatch :=
  match matchOf mw.BundleRegEx path with
  | some caps => asHandled (cachedBundle mw.bcc o (jsStr caps.head?) fs)
  | none =>
    match matchOf mw.CompileRegEx path with
    | some caps => asHandled (cachedCompile mw.bcc o (jsStr caps.head?) fs)
    | none =>
      match matchOf mw.CacheRegEx path with
      | some caps =>
        asHandled (scriptCacheOp mw.bcc o (jsStr (caps.get? 1)) (jsStr caps.head?) fs)
      | none => (Except.ok Dispatch.pass, fs, [])

/-! ## Helper lemmas -/

theorem joinSep_cons_head (sep : Str) (c : Char) (q : Str) (qs : List Str) :
    joinSep sep ((c :: q) :: qs) = c :: joinSep sep (q :: qs) := by
  cases qs <;> simp [joinSep]

theorem splitOnL_ne_nil (p s : Str) : splitOnL p s ≠ [] := by
  rw [splitOnL.eq_def]
  split
  · simp
  · split
    · simp
    · split
      · simp
      · split <;> simp

/-- A Bool prefix test on a cons decomposes the list after the pattern. -/
theorem prefix_decomp (p : Str) (hp : p ≠ []) (c : Char) (rest : Str)
    (h : p.isPrefixOf (c :: rest) = true) :
    c :: rest = p ++ rest.drop (p.length - 1) := by
  have h2 : p <+: (c :: rest) := by simpa using h
  obtain ⟨t, ht⟩ := h2
  have hl : 0 < p.length := List.length_pos.mpr hp
  have hdrop : (c :: rest).drop p.length = t := by
    rw [← ht]; exact List.drop_left p t
  have h3 : rest.drop (p.length - 1) = t := by
    rw [show p.length = (p.length - 1) + 1 by omega, List.drop_succ_cons] at hdrop
    exact hdrop
  rw [h3, ht]

/-- Joining the fragments with the pattern restores the original string. -/
theorem joinSep_splitOnL (p : Str) (hp : p ≠ []) (s : Str) :
    joinSep p (splitOnL p s) = s := by
  induction s using splitOnL.induct p with
  | case1 => simp [splitOnL, joinSep]
  | case2 c rest h => exact absurd h hp
  | case3 c rest h hpre ih =>
    rw [splitOnL.eq_def]
    simp only [if_neg h, if_pos hpre]
    obtain ⟨q, qs, hsp⟩ := List.exists_cons_of_ne_nil
      (splitOnL_ne_nil p (rest.drop (p.length - 1)))
    rw [hsp] at ih ⊢
    simp only [joinSep, List.nil_append]
    rw [ih]
    exact (prefix_decomp p hp c rest hpre).symm
  | case4 c rest h hpre hnil ih => exact absurd hnil (splitOnL_ne_nil p rest)
  | case5 c rest h hpre q qs hsp ih =>
    rw [splitOnL.eq_def]
    simp only [if_neg h, if_neg hpre, hsp]
    rw [joinSep_cons_head, ← hsp, ih]

/-- `replaceAll` joins the same fragments with the replacement text: every
occurrence of a nonempty pattern, scanned left to right, is rewritten. -/
theorem replaceAll_joinSep (p r : Str) (hp : p ≠ []) (s : Str) :
    replaceAll p r s = joinSep r (splitOnL p s) := by
  induction s using splitOnL.induct p with
  | case1 => simp [splitOnL, replaceAll, joinSep, hp]
  | case2 c rest h => exact absurd h hp
  | case3 c rest h hpre ih =>
    rw [splitOnL.eq_def, replaceAll.eq_def]
    simp only [if_neg h, if_pos hpre]
    obtain ⟨q, qs, hsp⟩ := List.exists_cons_of_ne_nil
      (splitOnL_ne_nil p (rest.drop (p.length - 1)))
    rw [hsp] at ih ⊢
    simp only [joinSep, List.nil_append]
    rw [ih]
  | case4 c rest h hpre hnil ih => exact absurd hnil (splitOnL_ne_nil p rest)
  | case5 c rest h hpre q qs hsp ih =>
    rw [splitOnL.eq_def, replaceAll.eq_def]
    simp only [if_neg h, if_neg hpre, hsp]
    rw [joinSep_cons_head, ← hsp, ih]

/-- The first fragment of the decomposition is a prefix of the string. -/
theorem splitOnL_head_prefix (p : Str) (s : Str) :
    ∀ q qs, splitOnL p s = q :: qs → q <+: s := by
  induction s using splitOnL.induct p with
  | case1 =>
    intro q qs h
    simp [splitOnL] at h
    simp [h.1]
  | case2 c rest h =>
    intro q qs hh
    rw [splitOnL.eq_def] at hh
    simp only [if_pos h] at hh
    injection hh with h1 h2
    rw [← h1]
  | case3 c rest h hpre ih =>
    intro q qs hh
    rw [splitOnL.eq_def] at hh
    simp only [if_neg h, if_pos hpre] at hh
    injection hh with h1 h2
    rw [← h1]
    exact List.nil_prefix
  | case4 c rest h hpre hnil ih =>
    intro q qs hh
    exact absurd hnil (splitOnL_ne_nil p rest)
  | case5 c rest h hpre q0 qs0 hsp ih =>
    intro q qs hh
    rw [splitOnL.eq_def] at hh
    simp only [if_neg h, if_neg hpre, hsp] at hh
    injection hh with h1 h2
    rw [← h1]
    exact List.cons_prefix_cons.mpr ⟨rfl, ih q0 qs0 hsp⟩

/-- No fragment of the decomposition contains the (nonempty) pattern. -/
theorem splitOnL_no_sub (p : Str) (hp : p ≠ []) (s : Str) :
    ∀ q ∈ splitOnL p s, hasSub p q = false := by
  induction s using splitOnL.induct p with
  | case1 =>
    intro q hq
    simp [splitOnL] at hq
    subst hq
    cases p with
    | nil => exact absurd rfl hp
    | cons a as => simp [hasSub]
  | case2 c rest h => exact absurd h hp
  | case3 c rest h hpre ih =>
    intro q hq
    rw [splitOnL.eq_def] at hq
    simp only [if_neg h, if_pos hpre, List.mem_cons] at hq
    rcases hq with rfl | hq
    · cases p with
      | nil => exact absurd rfl hp
      | cons a as => simp [hasSub]
    · exact ih q hq
  | case4 c rest h hpre hnil ih =>
    intro q hq
    exact absurd hnil (splitOnL_ne_nil p rest)
  | case5 c rest h hpre q0 qs0 hsp ih =>
    intro q hq
    rw [splitOnL.eq_def] at hq
    simp only [if_neg h, if_neg hpre, hsp, List.mem_cons] at hq
    rcases hq with rfl | hq
    · have hq0 : hasSub p q0 = false := ih q0 (hsp ▸ List.mem_cons_self q0 qs0)
      have hpre2 : p.isPrefixOf (c :: q0) = false := by
        cases hb : p.isPrefixOf (c :: q0)
        · rfl
        · exfalso
          have h1 : p <+: c :: q0 := by simpa using hb
          have h2 : q0 <+: rest := splitOnL_head_prefix p rest q0 qs0 hsp
          have h3 : (c :: q0) <+: (c :: rest) := List.cons_prefix_cons.mpr ⟨rfl, h2⟩
          have h4 : p.isPrefixOf (c :: rest) = true := by simpa using h1.trans h3
          exact hpre h4
      rw [hasSub, hpre2, hq0]
      rfl
    · exact ih q (hsp ▸ List.mem_cons_of_mem q0 hq)

theorem generatedPaths_source (b : BCC) (o : Oracles) (s : Str) :
    (generatedPaths b o s).source = srcPath b s := rfl

theorem generatedPaths_bundle (b : BCC) (o : Oracles) (s : Str) :
    (generatedPaths b o s).bundle =
      if jsTruthyS b.settings.bundleFolder then some (plannedPath b.settings.bundleFolder s)
      else none := rfl

theorem generatedPaths_compiled (b : BCC) (o : Oracles) (s : Str) :
    (generatedPaths b o s).compiled =
      if jsTruthyS b.settings.compiledFolder then some (plannedPath b.settings.compiledFolder s)
      else none := rfl

theorem generatedPaths_transpile (b : BCC) (o : Oracles) (s : Str) :
    (generatedPaths b o s).transpile =
      if jsTruthyS b.settings.transpileFolder then
        some (plannedPath b.settings.transpileFolder s)
      else none := rfl

theorem plannedPath_isEmpty (folder : Option Str) (s : Str) :
    (plannedPath folder s).isEmpty = false := rfl

theorem str_dotSlash : str ("./") = ['.', '/'] := rfl

theorem str_dotJs : str (".js") = ['.', 'j', 's'] := rfl

/-- A path starting with `./` is never the empty (falsy) string. -/
theorem dotSlash_append_isEmpty (x : Str) : (str ("./") ++ x).isEmpty = false := by
  rw [str_dotSlash]
  rfl

/-- Reading back the key just written. -/
theorem mapGet_mapSet_self (m : List (Str × Str)) (k v : Str) :
    mapGet (mapSet m k v) k = some v := by
  induction m with
  | nil => simp [mapSet, mapGet]
  | cons e rest ih =>
    by_cases h : e.1 = k
    · simp [mapSet, h, mapGet]
    · simp [mapSet, h, mapGet, ih]

/-- The regex `/.js$/` strips exactly a trailing `.js` when one is there. -/
theorem stripJs_append_js (t : Str) : stripJs (t ++ str (".js")) = t := by
  have h : (t ++ str (".js")).reverse = 's' :: 'j' :: '.' :: t.reverse := by
    rw [str_dotJs]
    simp
  rw [stripJs, h]
  simp [lineTerm]

/-- `cacheOrGen` on a truthy path and a cache hit: the stored content is
returned, nothing else happens. -/
theorem cacheOrGen_hit (script cp fn d : Str) (gen : Str → FS → Res Unit) (fs : FS)
    (hcp : cp.isEmpty = false) (hhit : mapGet fs (normPath cp) = some d) :
    cacheOrGen script (some cp) gen fn fs = (Except.ok d, fs, [Ev.readEv cp]) := by
  simp [cacheOrGen, hcp, hhit]

/-- `cacheOrGen` on a truthy path and a cache miss: the generator runs on
the stripped script, then the path is re-read. -/
theorem cacheOrGen_miss (script cp fn : Str) (gen : Str → FS → Res Unit) (fs : FS)
    (hcp : cp.isEmpty = false) (hmiss : mapGet fs (normPath cp) = none) :
    cacheOrGen script (some cp) gen fn fs =
      (match gen (stripJs script) fs with
       | (Except.ok _, fs2, e2) =>
         match mapGet fs2 (normPath cp) with
         | some d => (Except.ok d, fs2, Ev.readEv cp :: e2 ++ [Ev.readEv cp])
         | none =>
           (Except.ok (notFoundSentinel fn script), fs2,
             Ev.readEv cp :: e2 ++ [Ev.readEv cp])
       | (Except.error e, fs2, e2) => (Except.error e, fs2, Ev.readEv cp :: e2)) := by
  simp [cacheOrGen, hcp, hmiss]

/-- `compile` on an enabled configuration whose compiler emits without
diagnostics: the emit loop runs and is reported behind one generator
invocation. -/
theorem compileOp_emits (b : BCC) (o : Oracles) (script : Str) (em : List (Str × Str))
    (fs : FS) (henb : jsTruthyS b.settings.compiledFolder = true)
    (hgen : o.compileO (srcPath b script) = Except.ok (none, em)) :
    compileOp b o script fs =
      (Except.ok (),
        (writeEmitLoop b (jsStr b.settings.compiledFolder)
          (plannedPath b.settings.compiledFolder script) em fs).1,
        Ev.genCompileEv script ::
          (writeEmitLoop b (jsStr b.settings.compiledFolder)
            (plannedPath b.settings.compiledFolder script) em fs).2) := by
  simp only [compileOp, generatedPaths_compiled, generatedPaths_source, henb, if_true,
    plannedPath_isEmpty, Bool.not_true, Bool.or_false, Bool.false_eq_true, if_false, hgen]

/-- The rewritten content of the last emitted resource: each loop iteration
overwrites the same output path, so the last one is what persists. -/
def lastCode (b : BCC) : List (Str × Str) → Str
  | [] => []
  | [(_, c)] => mapExternalSources b c
  | _ :: rest => lastCode b rest

/-- How many generator invocations a trace holds. -/
def countGen (evs : List Ev) : Nat :=
  evs.countP (fun e =>
    match e with
    | Ev.genCompileEv _ => true
    | Ev.genBundleEv _ => true
    | Ev.genTranspileEv _ => true
    | _ => false)

theorem writeEmitLoop_fs (b : BCC) (folder dir : Str) :
    ∀ (ems : List (Str × Str)) (fs : FS), ems ≠ [] →
      mapGet (writeEmitLoop b folder dir ems fs).1 (normPath dir) = some (lastCode b ems) := by
  intro ems
  induction ems with
  | nil => intro fs h; exact absurd rfl h
  | cons e rest ih =>
    intro fs _
    match e with
    | (r, raw) =>
      cases rest with
      | nil => simp [writeEmitLoop, lastCode, mapGet_mapSet_self]
      | cons e2 rest2 =>
        simp only [writeEmitLoop, lastCode]
        exact ih _ (by simp)

theorem writeEmitLoop_no_gen (b : BCC) (folder dir : Str) :
    ∀ (ems : List (Str × Str)) (fs : FS),
      countGen (writeEmitLoop b folder dir ems fs).2 = 0 := by
  intro ems
  induction ems with
  | nil => intro fs; simp [writeEmitLoop, countGen]
  | cons e rest ih =>
    intro fs
    match e with
    | (r, raw) =>
      simp only [writeEmitLoop]
      simp [countGen] at ih ⊢
      exact ih _

/-- The md5-keyed remote-cache entry path read by `scriptCache`. -/
def remoteEntryUri (b : BCC) (o : Oracles) (script handle : Str) : Str :=
  str ("./") ++ jsStr b.settings.cacheFolder ++ str ("/") ++ handle ++ str ("/") ++
    o.md5 script

/-- The md5-keyed remote-cache entry path written by `updateCache` (the same
file: the read path carries a `./` prefix the OS resolves away). -/
def remoteEntryPath (b : BCC) (o : Oracles) (script handle : Str) : Str :=
  jsStr b.settings.cacheFolder ++ str ("/") ++ handle ++ str ("/") ++ o.md5 script

/-- Stripping an explicit `./` head. -/
theorem normPath_dotSlash_cons (x : Str) : normPath ('.' :: '/' :: x) = x := by
  simp [normPath, str_dotSlash, List.isPrefixOf_cons₂, List.isPrefixOf_nil_left]

/-- Normalizing the read path yields the write path. -/
theorem normPath_remoteEntryUri (b : BCC) (o : Oracles) (script handle : Str) :
    normPath (remoteEntryUri b o script handle) = remoteEntryPath b o script handle := by
  show normPath ('.' :: '/' :: (jsStr b.settings.cacheFolder ++ str ("/") ++ handle ++
    str ("/") ++ o.md5 script)) = _
  exact normPath_dotSlash_cons _

/-! ## Concrete fixtures for witnesses and counterexamples -/

/-- A benign oracle: identity fingerprint, all generators succeed. -/
def oracleA : Oracles where
  md5 := fun s => s
  fetchO := fun _ => Except.ok (str ("FETCHED"))
  compileO := fun _ => Except.ok (none, [(str ("m"), str ("CC"))])
  bundleO := fun _ => Except.ok (none, str ("BB"))
  transpileO := fun _ => Except.ok []
  cwd := str ("/cwd")

/-- An oracle whose compiler reports diagnostics (invalid source). -/
def oracleDiag : Oracles :=
  { oracleA with compileO := fun _ => Except.ok (some (str ("diag")), []) }

/-- An oracle whose network fetch rejects. -/
def oracleNetDown : Oracles :=
  { oracleA with fetchO := fun _ => Except.error (JsError.fetchError (str ("network down"))) }

/-- An oracle whose compiler emits nothing. -/
def oracleNoEmit : Oracles :=
  { oracleA with compileO := fun _ => Except.ok (none, []) }

/-- Configuration with every folder set. -/
def bAll : BCC where
  settings :=
    { tsSource := str ("src"), bundleFolder := some (str ("bun")),
      compiledFolder := some (str ("out")), transpileFolder := some (str ("tp")),
      cacheFolder := some (str ("cache")), cacheRoot := some (str ("r")) }

/-- Configuration with no optional folder set. -/
def bNone : BCC where
  settings := { tsSource := str ("src") }

/-- Remote-cache configuration with one registered source. -/
def bCacheReg : BCC where
  settings := { tsSource := str ("src"), cacheFolder := some (str ("cache")) }
  cacheMap := [(str ("lib"), str ("https://cdn.example/lib/"))]

/-- Remote-cache configuration with an empty registry. -/
def bCacheEmpty : BCC where
  settings := { tsSource := str ("src"), cacheFolder := some (str ("cache")) }

/-- Rewriting configuration whose replacement text contains the registered
source URL again. -/
def bRewrite : BCC where
  settings := { tsSource := str ("src"), cacheRoot := some (str ("a")), mapSources := true }
  cacheMap := [(str ("h"), str ("a"))]

/-- Simple-variant configuration mirroring `bAll`. -/
def sbAll : SBCC where
  settings :=
    { tsSource := str ("src"), bundleFolder := str ("bun"), compiledFolder := str ("out"),
      cacheFolder := str ("cache"), cacheRoot := str ("r") }

/-! ## The claims -/

/-- C2: for every script, when a kind's output folder is not configured the
cached operation returns the sentinel text naming the disabled operation —
for bundle, the literal `cachedBundle is disabled in the BCC configuration.`
payload — and `scriptCache` with no cache folder returns the external-cache
disabled sentinel; in each case the filesystem is unchanged and the effect
trace is empty (no filesystem or network access). -/
theorem c2_disabled_kind_short_circuit (b : BCC) (o : Oracles) (s h : Str) (fs : FS) :
    (jsTruthyS b.settings.bundleFolder = false →
      cachedBundle b o s fs =
        (Except.ok (disabledSentinel (str ("cachedBundle"))), fs, [])) ∧
    (jsTruthyS b.settings.compiledFolder = false →
      cachedCompile b o s fs =
        (Except.ok (disabledSentinel (str ("cachedCompile"))), fs, [])) ∧
    (jsTruthyS b.settings.transpileFolder = false →
      cachedTranspile b o s fs =
        (Except.ok (disabledSentinel (str ("cachedTranspile"))), fs, [])) ∧
    (jsTruthyS b.settings.cacheFolder = false →
      scriptCacheOp b o s h fs = (Except.ok extDisabledSentinel, fs, [])) := by
  refine ⟨fun hb => ?_, fun hc => ?_, fun ht => ?_, fun hx => ?_⟩
  · simp [cachedBundle, cacheOrGen, generatedPaths, hb]
  · simp [cachedCompile, cacheOrGen, generatedPaths, hc]
  · simp [cachedTranspile, cacheOrGen, generatedPaths, ht]
  · simp [scriptCacheOp, hx]

/-- Witness for C2 at the all-disabled configuration. -/
theorem c2_disabled_kind_short_circuit_witness :
    cachedBundle bNone oracleA (str ("app")) [] =
      (Except.ok (disabledSentinel (str ("cachedBundle"))), [], []) ∧
    scriptCacheOp bNone oracleA (str ("app")) (str ("lib")) [] =
      (Except.ok extDisabledSentinel, [], []) :=
  ⟨(c2_disabled_kind_short_circuit bNone oracleA (str ("app")) (str ("lib")) []).1 rfl,
   (c2_disabled_kind_short_circuit bNone oracleA (str ("app")) (str ("lib")) []).2.2.2 rfl⟩

/-- C1 counterexample: `cachedBundle` of `app` with the bundle kind enabled
and a valid source (the bundler emits deterministically) returns the
not-found sentinel instead of the generated text — the artifact was written
at `bun/app.js`, not the planned `bun/app` — and the second request invokes
the generator again, refuting both the planned-path and the
no-reinvocation halves of the claim. -/
theorem c1_counterexample :
    (cachedBundle bAll oracleA (str ("app")) []).1 =
      Except.ok (notFoundSentinel (str ("cachedBundle")) (str ("app"))) ∧
    mapGet (cachedBundle bAll oracleA (str ("app")) []).2.1
      (normPath (plannedPath (some (str ("bun"))) (str ("app")))) = none ∧
    Ev.genBundleEv (str ("app")) ∈
      (cachedBundle bAll oracleA (str ("app"))
        (cachedBundle bAll oracleA (str ("app")) []).2.1).2.2 := by
  decide

/-- C1 amended: read-through idempotence holds (a) for `cachedCompile`
whenever the strip regex leaves the script unchanged (in particular for
`app` with only `compiledFolder` set): on a valid source the first request
runs exactly one generator invocation and leaves the artifact at the planned
path `{compiledFolder}/{script}`, and the second request returns the
identical bytes from the cache with no generator invocation; and (b) for
`scriptCache` with the cache folder set, a successful fetch, and a write
path needing no `./`-normalization: the first request performs exactly one
fetch (the trace holds a single `fetchEv`) and writes the entry at
`{cacheFolder}/{handle}/{md5}`, and the second request returns the
identical bytes with no fetch. -/
theorem c1_amended_read_through (b : BCC) (o : Oracles) (s handle body : Str)
    (em : List (Str × Str)) (fs : FS) :
    (stripJs s = s →
      jsTruthyS b.settings.compiledFolder = true →
      mapGet fs (normPath (plannedPath b.settings.compiledFolder s)) = none →
      o.compileO (srcPath b s) = Except.ok (none, em) →
      em ≠ [] →
      (cachedCompile b o s fs).1 = Except.ok (lastCode b em) ∧
      countGen (cachedCompile b o s fs).2.2 = 1 ∧
      mapGet (cachedCompile b o s fs).2.1
        (normPath (plannedPath b.settings.compiledFolder s)) = some (lastCode b em) ∧
      cachedCompile b o s (cachedCompile b o s fs).2.1 =
        (Except.ok (lastCode b em), (cachedCompile b o s fs).2.1,
          [Ev.readEv (plannedPath b.settings.compiledFolder s)])) ∧
    (jsTruthyS b.settings.cacheFolder = true →
      mapGet fs (normPath (remoteEntryUri b o s handle)) = none →
      o.fetchO (jsStr (mapGet b.cacheMap handle) ++ s) = Except.ok body →
      normPath (remoteEntryPath b o s handle) = remoteEntryPath b o s handle →
      scriptCacheOp b o s handle fs =
        (Except.ok (mapExternalSources b body),
          mapSet fs (remoteEntryPath b o s handle) (mapExternalSources b body),
          [Ev.readEv (remoteEntryUri b o s handle),
            Ev.fetchEv (jsStr (mapGet b.cacheMap handle) ++ s),
            Ev.ensureEv (jsStr b.settings.cacheFolder ++ str ("/") ++ handle ++ str ("/")),
            Ev.writeEv (remoteEntryPath b o s handle),
            Ev.readEv (remoteEntryUri b o s handle)]) ∧
      scriptCacheOp b o s handle
          (mapSet fs (remoteEntryPath b o s handle) (mapExternalSources b body)) =
        (Except.ok (mapExternalSources b body),
          mapSet fs (remoteEntryPath b o s handle) (mapExternalSources b body),
          [Ev.readEv (remoteEntryUri b o s handle)])) := by
  constructor
  · intro hstrip henb hmiss hgen hem
    have hw := writeEmitLoop_fs b (jsStr b.settings.compiledFolder)
      (plannedPath b.settings.compiledFolder s) em fs hem
    have hng := writeEmitLoop_no_gen b (jsStr b.settings.compiledFolder)
      (plannedPath b.settings.compiledFolder s) em fs
    have hfirst : cachedCompile b o s fs =
        (Except.ok (lastCode b em),
          (writeEmitLoop b (jsStr b.settings.compiledFolder)
            (plannedPath b.settings.compiledFolder s) em fs).1,
          Ev.readEv (plannedPath b.settings.compiledFolder s) ::
            (Ev.genCompileEv s ::
              (writeEmitLoop b (jsStr b.settings.compiledFolder)
                (plannedPath b.settings.compiledFolder s) em fs).2) ++
            [Ev.readEv (plannedPath b.settings.compiledFolder s)]) := by
      simp only [cachedCompile, generatedPaths_compiled, henb, if_true]
      rw [cacheOrGen_miss s _ _ _ fs (plannedPath_isEmpty _ _) hmiss]
      simp only [hstrip]
      rw [compileOp_emits b o s em fs henb hgen]
      simp only [hw]
    refine ⟨by rw [hfirst], ?_, ?_, ?_⟩
    · rw [hfirst]
      simp only [countGen, List.countP_cons, List.countP_append] at hng ⊢
      simp [hng]
    · rw [hfirst]
      exact hw
    · rw [hfirst]
      simp only [cachedCompile, generatedPaths_compiled, henb, if_true]
      rw [cacheOrGen_hit s _ _ _ _ _ (plannedPath_isEmpty _ _) hw]
  · intro hcf hmiss hfetch hnp
    simp only [remoteEntryUri] at hmiss
    simp only [remoteEntryPath] at hnp
    have hb : normPath (str ("./") ++ jsStr b.settings.cacheFolder ++ str ("/") ++ handle ++
        str ("/") ++ o.md5 s) =
        jsStr b.settings.cacheFolder ++ str ("/") ++ handle ++ str ("/") ++ o.md5 s :=
      normPath_remoteEntryUri b o s handle
    rw [hb] at hmiss
    constructor
    · simp only [scriptCacheOp, hcf, if_true]
      rw [hb]
      simp only [hmiss, updateCacheOp, hcf, Bool.not_true, Bool.false_eq_true, if_false,
        hfetch, hnp, mapGet_mapSet_self]
      simp [remoteEntryUri, remoteEntryPath]
    · simp only [scriptCacheOp, hcf, if_true]
      rw [hb]
      simp only [remoteEntryPath, mapGet_mapSet_self]
      simp [remoteEntryUri]

/-- Witness for the amended C1 at the claim's own end-to-end examples:
compile of `app`, and the remote fetch of `utils.js` for the registered
handle `lib`. -/
theorem c1_amended_read_through_witness :
    ((cachedCompile bAll oracleA (str ("app")) []).1 =
        Except.ok (lastCode bAll [(str ("m"), str ("CC"))]) ∧
      countGen (cachedCompile bAll oracleA (str ("app")) []).2.2 = 1 ∧
      mapGet (cachedCompile bAll oracleA (str ("app")) []).2.1
        (normPath (plannedPath bAll.settings.compiledFolder (str ("app")))) =
        some (lastCode bAll [(str ("m"), str ("CC"))]) ∧
      cachedCompile bAll oracleA (str ("app"))
          (cachedCompile bAll oracleA (str ("app")) []).2.1 =
        (Except.ok (lastCode bAll [(str ("m"), str ("CC"))]),
          (cachedCompile bAll oracleA (str ("app")) []).2.1,
          [Ev.readEv (plannedPath bAll.settings.compiledFolder (str ("app")))])) ∧
    (scriptCacheOp bCacheReg oracleA (str ("utils.js")) (str ("lib")) [] =
        (Except.ok (mapExternalSources bCacheReg (str ("FETCHED"))),
          mapSet [] (remoteEntryPath bCacheReg oracleA (str ("utils.js")) (str ("lib")))
            (mapExternalSources bCacheReg (str ("FETCHED"))),
          [Ev.readEv (remoteEntryUri bCacheReg oracleA (str ("utils.js")) (str ("lib"))),
            Ev.fetchEv (jsStr (mapGet bCacheReg.cacheMap (str ("lib"))) ++ str ("utils.js")),
            Ev.ensureEv (jsStr bCacheReg.settings.cacheFolder ++ str ("/") ++ str ("lib") ++
              str ("/")),
            Ev.writeEv (remoteEntryPath bCacheReg oracleA (str ("utils.js")) (str ("lib"))),
            Ev.readEv (remoteEntryUri bCacheReg oracleA (str ("utils.js")) (str ("lib")))]) ∧
      scriptCacheOp bCacheReg oracleA (str ("utils.js")) (str ("lib"))
          (mapSet [] (remoteEntryPath bCacheReg oracleA (str ("utils.js")) (str ("lib")))
            (mapExternalSources bCacheReg (str ("FETCHED")))) =
        (Except.ok (mapExternalSources bCacheReg (str ("FETCHED"))),
          mapSet [] (remoteEntryPath bCacheReg oracleA (str ("utils.js")) (str ("lib")))
            (mapExternalSources bCacheReg (str ("FETCHED"))),
          [Ev.readEv (remoteEntryUri bCacheReg oracleA (str ("utils.js")) (str ("lib")))])) :=
  ⟨(c1_amended_read_through bAll oracleA (str ("app")) (str ("lib")) (str ("x"))
      [(str ("m"), str ("CC"))] []).1 rfl rfl rfl rfl (by decide),
   (c1_amended_read_through bCacheReg oracleA (str ("utils.js")) (str ("lib"))
      (str ("FETCHED")) [] []).2 rfl rfl rfl rfl⟩

/-- C6: when the compile kind is enabled, the cache misses, and the external
compiler reports non-null diagnostics, `cachedCompile` aborts with the
assertion fault — the fault is not converted to any sentinel payload, and
nothing is written. -/
theorem c6_generator_fault_propagates (b : BCC) (o : Oracles) (s d : Str)
    (em : List (Str × Str)) (fs : FS)
    (henb : jsTruthyS b.settings.compiledFolder = true)
    (hmiss :
      mapGet fs
        (normPath (str ("./") ++ jsStr b.settings.compiledFolder ++ str ("/") ++ s)) = none)
    (hdiag : o.compileO (str ("./") ++ b.settings.tsSource ++ str ("/") ++ stripJs s) =
      Except.ok (some d, em)) :
    cachedCompile b o s fs =
      (Except.error (JsError.assertError d), fs,
        [Ev.readEv (str ("./") ++ jsStr b.settings.compiledFolder ++ str ("/") ++ s),
          Ev.genCompileEv (stripJs s)]) := by
  simp only [cachedCompile, cacheOrGen, generatedPaths, henb, if_true, hmiss,
    compileOp, hdiag]
  simp [str_dotSlash]

/-- Witness for C6: compiling the script `app` with a diagnostics-reporting
compiler aborts with the assertion fault. -/
theorem c6_generator_fault_propagates_witness :
    cachedCompile bAll oracleDiag (str ("app")) [] =
      (Except.error (JsError.assertError (str ("diag"))), [],
        [Ev.readEv (str ("./out/app")), Ev.genCompileEv (str ("app"))]) := by
  have h := c6_generator_fault_propagates bAll oracleDiag (str ("app")) (str ("diag")) [] []
    rfl rfl rfl
  exact h

/-- C3 counterexample: with rewriting enabled, registry `h ↦ a`, and cache
root `a`, the code `a` rewrites to `a/h/`, which still contains the
registered base URL `a` — the replacement text reintroduced it — so the
zero-occurrence guarantee is false. -/
theorem c3_counterexample :
    mapExternalSources bRewrite (str ("a")) = str ("a/h/") ∧
    hasSub (str ("a")) (mapExternalSources bRewrite (str ("a"))) = true := by
  have h1 : mapExternalSources bRewrite (str ("a")) =
      replaceAll (str ("a")) (str ("a/h/")) (str ("a")) := rfl
  have h2 : replaceAll (str ("a")) (str ("a/h/")) (str ("a")) = str ("a/h/") := by
    rw [show str ("a") = ['a'] from rfl, show str ("a/h/") = ['a', '/', 'h', '/'] from rfl]
    simp [replaceAll]
  refine ⟨h1.trans h2, ?_⟩
  rw [h1, h2]
  decide

/-- C3 amended: with rewriting disabled the rewrite is the identity; with
rewriting enabled and a single registered pair, the code decomposes at the
non-overlapping left-to-right occurrences of the base URL and every such
occurrence is replaced by `{cacheRoot}/{handle}/` — but the output may still
contain registered base URLs reintroduced by the replacement text, so no
zero-occurrence guarantee holds. -/
theorem c3_amended_rewrite (b : BCC) (code h src : Str)
    (hmap : b.cacheMap = [(h, src)]) (hs : src ≠ []) :
    (b.settings.mapSources = false → mapExternalSources b code = code) ∧
    (b.settings.mapSources = true →
      ∃ parts : List Str,
        (∀ q ∈ parts, hasSub src q = false) ∧
        joinSep src parts = code ∧
        mapExternalSources b code =
          joinSep (jsStr b.settings.cacheRoot ++ str ("/") ++ h ++ str ("/")) parts) := by
  constructor
  · intro hm
    simp [mapExternalSources, hm]
  · intro hm
    refine ⟨splitOnL src code, splitOnL_no_sub src hs code,
      joinSep_splitOnL src hs code, ?_⟩
    simp only [mapExternalSources, hm, if_true, hmap, List.foldl_cons, List.foldl_nil]
    exact replaceAll_joinSep src _ hs code

/-- Witness for the amended C3 at the rewrite fixture. -/
theorem c3_amended_rewrite_witness :
    ∃ parts : List Str,
      (∀ q ∈ parts, hasSub (str ("a")) q = false) ∧
      joinSep (str ("a")) parts = str ("xa") ∧
      mapExternalSources bRewrite (str ("xa")) =
        joinSep (jsStr bRewrite.settings.cacheRoot ++ str ("/") ++ str ("h") ++ str ("/"))
          parts :=
  (c3_amended_rewrite bRewrite (str ("xa")) (str ("h")) (str ("a")) rfl (by decide)).2 rfl

/-- C7 counterexample: the strip regex `/.js$/` has an unescaped dot, so
`mainjs` — which does not end in `.js` — is stripped to `mai` before the
generator runs; and for compile the extension is not reattached, so
`app.js` generates into `out/app` while the cache reads `out/app.js` and
returns the not-found sentinel. -/
theorem c7_counterexample :
    Ev.genCompileEv (str ("mai")) ∈ (cachedCompile bAll oracleA (str ("mainjs")) []).2.2 ∧
    (cachedCompile bAll oracleA (str ("app.js")) []).1 =
      Except.ok (notFoundSentinel (str ("cachedCompile")) (str ("app.js"))) := by
  decide

/-- `bundle` on an enabled configuration whose bundler emits without
diagnostics. -/
theorem bundleOp_emits (b : BCC) (o : Oracles) (script emit : Str) (fs : FS)
    (henb : jsTruthyS b.settings.bundleFolder = true)
    (hgen : o.bundleO (srcPath b script) = Except.ok (none, emit)) :
    bundleOp b o script fs =
      (Except.ok (),
        mapSet fs (normPath (plannedPath b.settings.bundleFolder script ++ str (".js")))
          (mapExternalSources b emit),
        [Ev.genBundleEv script, Ev.ensureEv (jsStr b.settings.bundleFolder),
          Ev.writeEv (plannedPath b.settings.bundleFolder script ++ str (".js"))]) := by
  simp only [bundleOp, generatedPaths_bundle, generatedPaths_source, henb, if_true,
    plannedPath_isEmpty, Bool.not_true, Bool.or_false, Bool.false_eq_true, if_false, hgen]

theorem plannedPath_append (folder : Option Str) (t x : Str) :
    plannedPath folder t ++ x = plannedPath folder (t ++ x) := by
  simp [plannedPath]

/-- C7 amended: the generator receives the script with the `/.js$/` match
stripped (any character followed by `js`), and only `bundle` reattaches
`.js` on output — so for `cachedBundle` the written path equals the planned
read path exactly when the script ends in `.js`, and the full read-through
then succeeds. -/
theorem c7_amended_strip_reattach (b : BCC) (o : Oracles) (t emit : Str) (fs : FS)
    (henb : jsTruthyS b.settings.bundleFolder = true)
    (hmiss :
      mapGet fs (normPath (plannedPath b.settings.bundleFolder (t ++ str (".js")))) = none)
    (hgen : o.bundleO (srcPath b t) = Except.ok (none, emit)) :
    stripJs (t ++ str (".js")) = t ∧
    Ev.genBundleEv t ∈ (cachedBundle b o (t ++ str (".js")) fs).2.2 ∧
    (cachedBundle b o (t ++ str (".js")) fs).1 = Except.ok (mapExternalSources b emit) ∧
    mapGet (cachedBundle b o (t ++ str (".js")) fs).2.1
      (normPath (plannedPath b.settings.bundleFolder (t ++ str (".js")))) =
      some (mapExternalSources b emit) := by
  have hstrip := stripJs_append_js t
  have hfirst : cachedBundle b o (t ++ str (".js")) fs =
      (Except.ok (mapExternalSources b emit),
        mapSet fs (normPath (plannedPath b.settings.bundleFolder (t ++ str (".js"))))
          (mapExternalSources b emit),
        Ev.readEv (plannedPath b.settings.bundleFolder (t ++ str (".js"))) ::
          [Ev.genBundleEv t, Ev.ensureEv (jsStr b.settings.bundleFolder),
            Ev.writeEv (plannedPath b.settings.bundleFolder t ++ str (".js"))] ++
          [Ev.readEv (plannedPath b.settings.bundleFolder (t ++ str (".js")))]) := by
    simp only [cachedBundle, generatedPaths_bundle, henb, if_true]
    rw [cacheOrGen_miss _ _ _ _ fs (plannedPath_isEmpty _ _) hmiss]
    simp only [hstrip]
    rw [bundleOp_emits b o t emit fs henb hgen]
    simp only [plannedPath_append, mapGet_mapSet_self]
  refine ⟨hstrip, ?_, by rw [hfirst], ?_⟩
  · rw [hfirst]
    simp
  · rw [hfirst]
    exact mapGet_mapSet_self _ _ _

/-- Witness for the amended C7: bundling `app.js`. -/
theorem c7_amended_strip_reattach_witness :
    stripJs (str ("app") ++ str (".js")) = str ("app") ∧
    Ev.genBundleEv (str ("app")) ∈
      (cachedBundle bAll oracleA (str ("app") ++ str (".js")) []).2.2 ∧
    (cachedBundle bAll oracleA (str ("app") ++ str (".js")) []).1 =
      Except.ok (mapExternalSources bAll (str ("BB"))) ∧
    mapGet (cachedBundle bAll oracleA (str ("app") ++ str (".js")) []).2.1
      (normPath (plannedPath bAll.settings.bundleFolder (str ("app") ++ str (".js")))) =
      some (mapExternalSources bAll (str ("BB"))) :=
  c7_amended_strip_reattach bAll oracleA (str ("app")) (str ("BB")) [] rfl rfl rfl

/-- The first read happens on every path through an enabled `cacheOrGen`. -/
theorem cacheOrGen_reads (script cp fn : Str) (gen : Str → FS → Res Unit) (fs : FS)
    (hcp : cp.isEmpty = false) :
    Ev.readEv cp ∈ (cacheOrGen script (some cp) gen fn fs).2.2 := by
  simp only [cacheOrGen, hcp, Bool.false_eq_true, if_false]
  cases hg : mapGet fs (normPath cp) with
  | some d => simp
  | none =>
    rcases hgen : gen (stripJs script) fs with ⟨r, fs2, e2⟩
    cases r with
    | ok u =>
      cases hr : mapGet fs2 (normPath cp) <;> simp [hr]
    | error e => simp

/-- C10 counterexample: `cachedCompile` invoked with the empty identifier is
not rejected — it reads the bare folder path `./out/` from the filesystem
before anything else and completes with the not-found sentinel. -/
theorem c10_counterexample :
    Ev.readEv (plannedPath (some (str ("out"))) (str (""))) ∈
      (cachedCompile bAll oracleNoEmit (str ("")) []).2.2 ∧
    (cachedCompile bAll oracleNoEmit (str ("")) []).1 =
      Except.ok (notFoundSentinel (str ("cachedCompile")) (str (""))) := by
  decide

/-- C10 amended: `valid` rejects an absent or empty identifier without
touching the filesystem, but the cache operations themselves perform no
emptiness check — with the compile kind enabled, an empty identifier
proceeds straight to a filesystem read of the bare output-folder path. -/
theorem c10_amended_empty_reject (b : BCC) (o : Oracles) (fs : FS) :
    validOp b o none fs = (Except.ok false, fs, []) ∧
    validOp b o (some []) fs = (Except.ok false, fs, []) ∧
    (jsTruthyS b.settings.compiledFolder = true →
      Ev.readEv (plannedPath b.settings.compiledFolder []) ∈
        (cachedCompile b o [] fs).2.2) := by
  refine ⟨rfl, rfl, fun henb => ?_⟩
  simp only [cachedCompile, generatedPaths_compiled, henb, if_true]
  exact cacheOrGen_reads _ _ _ _ fs (plannedPath_isEmpty _ _)

/-- Witness for the amended C10. -/
theorem c10_amended_empty_reject_witness :
    validOp bAll oracleA none [] = (Except.ok false, [], []) ∧
    Ev.readEv (plannedPath bAll.settings.compiledFolder []) ∈
      (cachedCompile bAll oracleA [] []).2.2 :=
  ⟨(c10_amended_empty_reject bAll oracleA []).1,
   (c10_amended_empty_reject bAll oracleA []).2.2 rfl⟩

/-- C4 counterexample: with the cache folder set and an empty registry,
`scriptCache` for the unregistered handle `h` does not reject — it fetches
the URL `undefineds` (the missing registry entry interpolates as
"undefined"), writes the cache entry `cache/h/s`, and returns the fetched
body instead of any disabled-class sentinel. -/
theorem c4_counterexample :
    validSource bCacheEmpty (str ("h")) = false ∧
    (scriptCacheOp bCacheEmpty oracleA (str ("s")) (str ("h")) []).1 =
      Except.ok (str ("FETCHED")) ∧
    Ev.fetchEv (str ("undefineds")) ∈
      (scriptCacheOp bCacheEmpty oracleA (str ("s")) (str ("h")) []).2.2 ∧
    mapGet (scriptCacheOp bCacheEmpty oracleA (str ("s")) (str ("h")) []).2.1
      (str ("cache/h/s")) = some (str ("FETCHED")) := by
  decide

/-- C4 amended: `scriptCache` performs no registration check (the check
exists only as the separate, uninvoked `validSource` predicate): on a miss
for an unregistered handle it proceeds down the normal miss path and fetches
the URL `undefined{script}`. -/
theorem c4_amended_no_registration_check (b : BCC) (o : Oracles) (script handle : Str)
    (fs : FS)
    (hunreg : mapGet b.cacheMap handle = none)
    (hcf : jsTruthyS b.settings.cacheFolder = true)
    (hmiss : mapGet fs (normPath (remoteEntryUri b o script handle)) = none) :
    validSource b handle = false ∧
    Ev.fetchEv (str ("undefined") ++ script) ∈ (scriptCacheOp b o script handle fs).2.2 := by
  refine ⟨by simp [validSource, hunreg], ?_⟩
  simp only [remoteEntryUri] at hmiss
  simp only [scriptCacheOp, hcf, if_true, hmiss, updateCacheOp, Bool.not_true,
    Bool.false_eq_true, if_false, hunreg]
  cases hf : o.fetchO (jsStr none ++ script) with
  | error e => simp [hf, jsStr]
  | ok body =>
    simp only [hf]
    cases hr :
        mapGet
          (mapSet fs
            (normPath
              (jsStr b.settings.cacheFolder ++ str ("/") ++ handle ++ str ("/") ++
                o.md5 script))
            (mapExternalSources b body))
          (normPath
            (str ("./") ++ jsStr b.settings.cacheFolder ++ str ("/") ++ handle ++
              str ("/") ++ o.md5 script)) <;>
      simp [hr, jsStr]

/-- Witness for the amended C4. -/
theorem c4_amended_no_registration_check_witness :
    validSource bCacheEmpty (str ("h")) = false ∧
    Ev.fetchEv (str ("undefined") ++ str ("s")) ∈
      (scriptCacheOp bCacheEmpty oracleA (str ("s")) (str ("h")) []).2.2 :=
  c4_amended_no_registration_check bCacheEmpty oracleA (str ("s")) (str ("h")) [] rfl rfl rfl

/-- C5 counterexample: on a remote-cache miss with a registered handle and a
rejecting network fetch, `scriptCache` propagates the fetch fault to the
caller instead of returning the missing-file sentinel — the `await
updateCache` sits outside the inner `try`, so its faults are never
caught. -/
theorem c5_counterexample :
    scriptCacheOp bCacheReg oracleNetDown (str ("utils.js")) (str ("lib")) [] =
      (Except.error (JsError.fetchError (str ("network down"))), [],
        [Ev.readEv (str ("./cache/lib/utils.js")),
          Ev.fetchEv (str ("https://cdn.example/lib/utils.js"))]) := by
  decide

/-- C5 amended: a fetch fault during a remote-cache miss propagates out of
`scriptCache` unchanged, with no cache entry written; the missing-file
sentinel is returned only when `updateCache` completes normally and the
entry is still unreadable. -/
theorem c5_amended_fetch_fault_propagates (b : BCC) (o : Oracles) (script handle : Str)
    (fs : FS) (e : JsError)
    (hcf : jsTruthyS b.settings.cacheFolder = true)
    (hmiss : mapGet fs (normPath (remoteEntryUri b o script handle)) = none)
    (hfetch : o.fetchO (jsStr (mapGet b.cacheMap handle) ++ script) = Except.error e) :
    scriptCacheOp b o script handle fs =
      (Except.error e, fs,
        [Ev.readEv (remoteEntryUri b o script handle),
          Ev.fetchEv (jsStr (mapGet b.cacheMap handle) ++ script)]) := by
  simp only [remoteEntryUri] at hmiss ⊢
  simp only [scriptCacheOp, hcf, if_true, hmiss, updateCacheOp, Bool.not_true,
    Bool.false_eq_true, if_false, hfetch]

/-- Witness for the amended C5. -/
theorem c5_amended_fetch_fault_propagates_witness :
    scriptCacheOp bCacheReg oracleNetDown (str ("utils.js")) (str ("lib")) [] =
      (Except.error (JsError.fetchError (str ("network down"))), [],
        [Ev.readEv (remoteEntryUri bCacheReg oracleNetDown (str ("utils.js")) (str ("lib"))),
          Ev.fetchEv
            (jsStr (mapGet bCacheReg.cacheMap (str ("lib"))) ++ str ("utils.js"))]) :=
  c5_amended_fetch_fault_propagates bCacheReg oracleNetDown (str ("utils.js"))
    (str ("lib")) [] (JsError.fetchError (str ("network down"))) rfl rfl rfl

/-- C8: the constructed middleware tests bundle, then compile, then cache;
the first matching slot runs the corresponding cache operation on the
captured groups and marks the body `text/javascript`; no match calls the
next handler; and a slot whose folder is not configured is forced to null at
construction, even if a pattern was supplied. -/
theorem c8_router_dispatch (s : BCC_Middleware_Settings) (o : Oracles) (path : Str) (fs : FS) :
    (jsTruthyS s.bccSettings.bundleFolder = false → (mkMiddleware s).BundleRegEx = none) ∧
    (jsTruthyS s.bccSettings.compiledFolder = false → (mkMiddleware s).CompileRegEx = none) ∧
    (jsTruthyS s.bccSettings.cacheFolder = false → (mkMiddleware s).CacheRegEx = none) ∧
    (∀ caps, matchOf (mkMiddleware s).BundleRegEx path = some caps →
      middlewareRun (mkMiddleware s) o path fs =
        asHandled (cachedBundle (mkMiddleware s).bcc o (jsStr caps.head?) fs)) ∧
    (∀ caps, matchOf (mkMiddleware s).BundleRegEx path = none →
      matchOf (mkMiddleware s).CompileRegEx path = some caps →
      middlewareRun (mkMiddleware s) o path fs =
        asHandled (cachedCompile (mkMiddleware s).bcc o (jsStr caps.head?) fs)) ∧
    (∀ caps, matchOf (mkMiddleware s).BundleRegEx path = none →
      matchOf (mkMiddleware s).CompileRegEx path = none →
      matchOf (mkMiddleware s).CacheRegEx path = some caps →
      middlewareRun (mkMiddleware s) o path fs =
        asHandled
          (scriptCacheOp (mkMiddleware s).bcc o (jsStr (caps.get? 1)) (jsStr caps.head?) fs)) ∧
    (matchOf (mkMiddleware s).BundleRegEx path = none →
      matchOf (mkMiddleware s).CompileRegEx path = none →
      matchOf (mkMiddleware s).CacheRegEx path = none →
      middlewareRun (mkMiddleware s) o path fs = (Except.ok Dispatch.pass, fs, [])) := by
  refine ⟨fun hb => ?_, fun hc => ?_, fun hx => ?_, fun caps h1 => ?_,
    fun caps h1 h2 => ?_, fun caps h1 h2 h3 => ?_, fun h1 h2 h3 => ?_⟩
  · simp [mkMiddleware, hb]
  · simp [mkMiddleware, hc]
  · simp [mkMiddleware, hx]
  · simp only [middlewareRun, h1]
  · simp only [middlewareRun, h1, h2]
  · simp only [middlewareRun, h1, h2, h3]
  · simp only [middlewareRun, h1, h2, h3]

/-- Middleware settings with only the compiled folder configured and no
supplied patterns. -/
def mwFix : BCC_Middleware_Settings where
  bccSettings := { tsSource := str ("src"), compiledFolder := some (str ("out")) }

/-- Witness for C8: with only the compiled folder configured, the bundle
slot is null, so `/compiled/app` dispatches to `cachedCompile` with capture
`app`. -/
theorem c8_router_dispatch_witness :
    (mkMiddleware mwFix).BundleRegEx = none ∧
    middlewareRun (mkMiddleware mwFix) oracleA (str ("/compiled/app")) [] =
      asHandled (cachedCompile (mkMiddleware mwFix).bcc oracleA
        (jsStr ([str ("app")] : List Str).head?) []) := by
  refine ⟨(c8_router_dispatch mwFix oracleA (str ("/compiled/app")) []).1 rfl, ?_⟩
  exact (c8_router_dispatch mwFix oracleA (str ("/compiled/app")) []).2.2.2.2.1
    [str ("app")] rfl (by decide)

/-- The field correspondence between a simple-variant configuration and a
toggled configuration with every folder present. -/
def matching (sb : SBCC) (b : BCC) : Prop :=
  b.settings.tsSource = sb.settings.tsSource ∧
  b.settings.bundleFolder = some sb.settings.bundleFolder ∧
  b.settings.compiledFolder = some sb.settings.compiledFolder ∧
  b.settings.cacheFolder = some sb.settings.cacheFolder ∧
  b.settings.cacheRoot = some sb.settings.cacheRoot ∧
  b.settings.mapSources = sb.settings.mapSources ∧
  b.cacheMap = sb.cacheMap

theorem jsTruthyS_some_of_ne (x : Str) (hx : x ≠ []) : jsTruthyS (some x) = true := by
  cases x with
  | nil => exact absurd rfl hx
  | cons a l => rfl

theorem jsStr_some (x : Str) : jsStr (some x) = x := rfl

theorem mapExternalSources_equiv (sb : SBCC) (b : BCC) (code : Str)
    (hmt : matching sb b) : sMapExternalSources sb code = mapExternalSources b code := by
  obtain ⟨ht, hbf, hcf, hcaf, hcr, hm, hcm⟩ := hmt
  simp [sMapExternalSources, mapExternalSources, hm, hcm, hcr, jsStr]

theorem sBundleOp_equiv (sb : SBCC) (b : BCC) (o : Oracles) (sc : Str) (fs : FS)
    (hmt : matching sb b) (hbf2 : sb.settings.bundleFolder ≠ []) :
    (sBundleOp sb o sc fs).1 = (bundleOp b o sc fs).1 ∧
    (sBundleOp sb o sc fs).2.1 = (bundleOp b o sc fs).2.1 := by
  obtain ⟨ht, hbf, hcf, hcaf, hcr, hm, hcm⟩ := hmt
  have hjb : jsTruthyS b.settings.bundleFolder = true := by
    rw [hbf]; exact jsTruthyS_some_of_ne _ hbf2
  have hjb2 : jsTruthyS (some sb.settings.bundleFolder) = true :=
    jsTruthyS_some_of_ne _ hbf2
  simp only [sBundleOp, bundleOp, sGeneratedPaths, generatedPaths_bundle,
    generatedPaths_source, srcPath, plannedPath, hjb, hjb2, if_true, plannedPath_isEmpty,
    Bool.not_true, Bool.or_false, Bool.false_eq_true, if_false, ht, hbf, jsStr,
    Option.getD]
  cases hg : o.bundleO (str ("./") ++ sb.settings.tsSource ++ str ("/") ++ sc) with
  | error e => simp [hg, str_dotSlash]
  | ok pr =>
    match pr with
    | (some d, emit) => simp [hg, str_dotSlash]
    | (none, emit) =>
      simp [hg, str_dotSlash,
        mapExternalSources_equiv sb b emit ⟨ht, hbf, hcf, hcaf, hcr, hm, hcm⟩]

theorem sCachedBundle_equiv (sb : SBCC) (b : BCC) (o : Oracles) (s : Str) (fs : FS)
    (hmt : matching sb b) (hbf2 : sb.settings.bundleFolder ≠ []) :
    (sCachedBundle sb o s fs).1 = (cachedBundle b o s fs).1 ∧
    (sCachedBundle sb o s fs).2.1 = (cachedBundle b o s fs).2.1 := by
  have hjb : jsTruthyS b.settings.bundleFolder = true := by
    rw [hmt.2.1]; exact jsTruthyS_some_of_ne _ hbf2
  have hjb2 : jsTruthyS (some sb.settings.bundleFolder) = true :=
    jsTruthyS_some_of_ne _ hbf2
  have hcp : (str ("./") ++ sb.settings.bundleFolder ++ str ("/") ++ s).isEmpty = false :=
    rfl
  simp only [sCachedBundle, cachedBundle, sCacheOrGen, cacheOrGen, sGeneratedPaths,
    generatedPaths_bundle, hjb, hjb2, if_true, plannedPath, hmt.2.1, jsStr, Option.getD,
    hcp, Bool.false_eq_true, if_false]
  cases hg : mapGet fs (normPath (str ("./") ++ sb.settings.bundleFolder ++ str ("/") ++ s)) with
  | some d => simp [hg]
  | none =>
    simp only [hg]
    have hbeq := sBundleOp_equiv sb b o (stripJs s) fs hmt hbf2
    rcases h1 : bundleOp b o (stripJs s) fs with ⟨r, fs2, e2⟩
    rcases h2 : sBundleOp sb o (stripJs s) fs with ⟨q, fs3, e3⟩
    rw [h1, h2] at hbeq
    simp only at hbeq
    obtain ⟨hr, hfs⟩ := hbeq
    subst hr hfs
    cases q with
    | error e => simp
    | ok u =>
      cases hre :
          mapGet fs3
            (normPath (str ("./") ++ (sb.settings.bundleFolder ++ (str ("/") ++ s)))) <;>
        simp [hre]

theorem sScriptCache_equiv (sb : SBCC) (b : BCC) (o : Oracles) (script hnd : Str)
    (fs : FS) (hmt : matching sb b) (hcache : sb.settings.cacheFolder = str ("cache")) :
    (sScriptCacheOp sb o script hnd fs).1 = (scriptCacheOp b o script hnd fs).1 ∧
    (sScriptCacheOp sb o script hnd fs).2.1 = (scriptCacheOp b o script hnd fs).2.1 := by
  obtain ⟨ht, hbf, hcf, hcaf, hcr, hm, hcm⟩ := hmt
  rw [hcache] at hcaf
  have hjc : jsTruthyS b.settings.cacheFolder = true := by rw [hcaf]; rfl
  have hjc2 : jsTruthyS (some (str ("cache"))) = true := rfl
  simp only [sScriptCacheOp, scriptCacheOp, hcaf, hcache, hjc, hjc2, if_true, jsStr_some]
  cases hg :
      mapGet fs
        (normPath (str ("./") ++ str ("cache") ++ str ("/") ++ hnd ++ str ("/") ++
          o.md5 script)) with
  | some d => simp [hg]
  | none =>
    simp only [hg, sUpdateCacheOp, updateCacheOp, hjc, hjc2, Bool.not_true,
      Bool.false_eq_true, if_false, hcm, hcaf, jsStr_some]
    cases hf : o.fetchO (jsStr (mapGet sb.cacheMap hnd) ++ script) with
    | error e => simp [hf]
    | ok body =>
      simp only [hf, jsStr_some,
        mapExternalSources_equiv sb b body ⟨ht, hbf, hcf, hcache ▸ hcaf, hcr, hm, hcm⟩]
      have hkey : normPath (str ("./cache/") ++ hnd ++ str ("/") ++ o.md5 script) =
          normPath (str ("cache") ++ str ("/") ++ hnd ++ str ("/") ++ o.md5 script) := rfl
      rw [hkey]
      cases hre :
          mapGet
            (mapSet fs
              (normPath (str ("cache") ++ str ("/") ++ hnd ++ str ("/") ++ o.md5 script))
              (mapExternalSources b body))
            (normPath
              (str ("./") ++ str ("cache") ++ str ("/") ++ hnd ++ str ("/") ++
                o.md5 script)) <;>
        simp [hre]

theorem sClears_equiv (sb : SBCC) (b : BCC) (fs : FS) (hmt : matching sb b) :
    (sb.settings.bundleFolder ≠ [] →
      sClearBundleCacheOp sb fs = clearBundleCacheOp b fs) ∧
    (sb.settings.compiledFolder ≠ [] →
      sClearCompileCacheOp sb fs = clearCompileCacheOp b fs) ∧
    (sb.settings.cacheFolder ≠ [] →
      sClearExternalCacheOp sb fs = clearExternalCacheOp b fs) := by
  obtain ⟨ht, hbf, hcf, hcaf, hcr, hm, hcm⟩ := hmt
  refine ⟨fun h1 => ?_, fun h2 => ?_, fun h3 => ?_⟩
  · simp [sClearBundleCacheOp, clearBundleCacheOp, hbf, jsTruthyS_some_of_ne _ h1, jsStr]
  · simp [sClearCompileCacheOp, clearCompileCacheOp, hcf, jsTruthyS_some_of_ne _ h2, jsStr]
  · simp [sClearExternalCacheOp, clearExternalCacheOp, hcaf, jsTruthyS_some_of_ne _ h3,
      jsStr]

/-- C9 counterexample: on the same all-folders-set configuration
(`sbAll` and `bAll` correspond field for field), `cachedCompile` of `app`
diverges between the variants — the simple variant writes `out/app.js` and
returns the not-found sentinel, while the toggled variant writes `out/app`
and returns the compiled text — so the variants are not observationally
equivalent on the shared operations. -/
theorem c9_counterexample :
    matching sbAll bAll ∧
    (sCachedCompile sbAll oracleA (str ("app")) []).1 =
      Except.ok (notFoundSentinel (str ("cachedCompile")) (str ("app"))) ∧
    (cachedCompile bAll oracleA (str ("app")) []).1 = Except.ok (str ("CC")) ∧
    mapGet (sCachedCompile sbAll oracleA (str ("app")) []).2.1 (str ("out/app.js")) =
      some (str ("CC")) ∧
    mapGet (cachedCompile bAll oracleA (str ("app")) []).2.1 (str ("out/app.js")) =
      none := by
  refine ⟨⟨rfl, rfl, rfl, rfl, rfl, rfl, rfl⟩, ?_⟩
  decide

/-- C9 amended: on corresponding all-enabled configurations the variants
agree (same returned text, same files) on `cachedBundle`, on the shared
clears, and on `scriptCache` exactly when the configured cache folder is the
literal `cache` that the simple variant hardcodes; they differ on
`cachedCompile` (the simple variant appends `.js` to the written artifact)
and on `scriptCache` for any other cache folder. -/
theorem c9_amended_variant_partial_equiv (sb : SBCC) (b : BCC) (o : Oracles)
    (s hnd : Str) (fs : FS) (hmt : matching sb b) :
    (sb.settings.bundleFolder ≠ [] →
      (sCachedBundle sb o s fs).1 = (cachedBundle b o s fs).1 ∧
      (sCachedBundle sb o s fs).2.1 = (cachedBundle b o s fs).2.1) ∧
    (sb.settings.cacheFolder = str ("cache") →
      (sScriptCacheOp sb o s hnd fs).1 = (scriptCacheOp b o s hnd fs).1 ∧
      (sScriptCacheOp sb o s hnd fs).2.1 = (scriptCacheOp b o s hnd fs).2.1) ∧
    (sb.settings.bundleFolder ≠ [] →
      sClearBundleCacheOp sb fs = clearBundleCacheOp b fs) ∧
    (sb.settings.compiledFolder ≠ [] →
      sClearCompileCacheOp sb fs = clearCompileCacheOp b fs) ∧
    (sb.settings.cacheFolder ≠ [] →
      sClearExternalCacheOp sb fs = clearExternalCacheOp b fs) :=
  ⟨fun h => sCachedBundle_equiv sb b o s fs hmt h,
    fun h => sScriptCache_equiv sb b o s hnd fs hmt h,
    (sClears_equiv sb b fs hmt).1, (sClears_equiv sb b fs hmt).2.1,
    (sClears_equiv sb b fs hmt).2.2⟩

/-- Witness for the amended C9. -/
theorem c9_amended_variant_partial_equiv_witness :
    ((sCachedBundle sbAll oracleA (str ("app")) []).1 =
        (cachedBundle bAll oracleA (str ("app")) []).1 ∧
      (sCachedBundle sbAll oracleA (str ("app")) []).2.1 =
        (cachedBundle bAll oracleA (str ("app")) []).2.1) ∧
    sClearBundleCacheOp sbAll [] = clearBundleCacheOp bAll [] := by
  have h := c9_amended_variant_partial_equiv sbAll bAll oracleA (str ("app")) (str ("h"))
    [] ⟨rfl, rfl, rfl, rfl, rfl, rfl, rfl⟩
  exact ⟨h.1 (by decide), h.2.2.1 (by decide)⟩

end OakBCC
